import Mathlib

/-!
Verification of the insights engine of `ai-insights-service`
(`app/services/insights_service.py`), shallowly embedded in Lean 4.

Conventions of the embedding:
* Python / numpy floats are modelled as `ℚ`.
* A pandas `DataFrame` of normalized transactions is modelled as `List Row`.
* `datetime` values are modelled as `ℚ` timestamps measured in days, so that
  `(max - min).days` becomes `Int.floor (max - min)`.
* The `IsolationForest` model is abstracted as a parameter
  `model : List ℚ → List Int × List ℚ` mapping the feature column (amounts)
  to `(fit_predict output, score_samples output)`; the surrounding plumbing
  of `_detect_anomalies` is embedded faithfully.
* Decimal string formatting (`:.2f`, `:.1f`, `:.0f`) is modelled by
  `fmtFixed`, which rounds arithmetically; no property below depends on the
  exact rendered digits.
-/

set_option maxHeartbeats 1000000

/-- `app/models/schemas.py` `Transaction`: `id : Optional[str]`,
`amount : float` (declared `gt=0`), `category : TransactionCategory`
(embedded as its `.value` string), `description : Optional[str]`,
`date : datetime`, `userId : str`, `type : Optional[str] = None`.
Note the `type` field exists on every instance (pydantic assigns the
default `None` when it is absent from the input). -/
structure Transaction where
  id : Option String
  amount : ℚ
  category : String
  description : Option String
  date : ℚ
  userId : String
  type : Option String
deriving DecidableEq

/-- One row of the DataFrame built by `_transactions_to_dataframe`. -/
structure Row where
  id : Option String
  type : Option String
  amount : ℚ
  category : String
  description : String
  date : ℚ
  userId : String
deriving DecidableEq

/-- `SpendingPattern` of `app/models/schemas.py`. -/
structure SpendingPattern where
  category : String
  totalAmount : ℚ
  transactionCount : Nat
  averageAmount : ℚ
  percentage : ℚ
deriving DecidableEq

/-- `BudgetRecommendation` of `app/models/schemas.py`. -/
structure BudgetRecommendation where
  category : String
  recommendedAmount : ℚ
  currentSpending : ℚ
  reason : String
  priority : String
deriving DecidableEq

/-- `AnomalyDetection` of `app/models/schemas.py`. -/
structure AnomalyDetection where
  transactionId : String
  amount : ℚ
  category : String
  date : ℚ
  anomalyScore : ℚ
  reason : String
deriving DecidableEq

/-- `CategoryHealth` of `app/models/schemas.py`. -/
structure CategoryHealth where
  category : String
  status : String
  reason : String
  spending : ℚ
  recommendation : String
deriving DecidableEq

/-- `IncomeVsExpense` of `app/models/schemas.py`. -/
structure IncomeVsExpense where
  totalIncome : ℚ
  totalExpense : ℚ
  netBalance : ℚ
  savingsRate : ℚ
  status : String
deriving DecidableEq

/-- `InsightsResponse` of `app/models/schemas.py`. -/
structure InsightsResponse where
  userId : String
  incomeVsExpense : IncomeVsExpense
  spendingPatterns : List SpendingPattern
  categoryHealth : List CategoryHealth
  budgetRecommendations : List BudgetRecommendation
  anomalies : List AnomalyDetection
  totalSpending : ℚ
  averageDailySpending : ℚ
  projectedMonthlySpending : ℚ
  savingsOpportunities : List String
deriving DecidableEq

/-- Left-pad a numeral string with zeros to width `k`. -/
def padZeros (s : String) (k : Nat) : String :=
  String.mk (List.replicate (k - s.length) (Char.ofNat 48)) ++ s

/-- Model of Python fixed-point formatting `f"{q:.prec f}"` over `ℚ`
(arithmetic rounding; the verified properties are insensitive to the
exact digits produced). -/
def fmtFixed (prec : Nat) (q : ℚ) : String :=
  let n : Int := round (q * (10 : ℚ) ^ prec)
  let sign := if n < 0 then "-" else ""
  let m := n.natAbs
  let base := (10 : Nat) ^ prec
  if prec = 0 then sign ++ toString m
  else sign ++ toString (m / base) ++ "." ++ padZeros (toString (m % base)) prec

/-- Python `x or d` for an optional string `x`: `None` and the empty
string are falsy, so both fall back to `d`. -/
def pyOr (o : Option String) (d : String) : String :=
  match o with
  | none => d
  | some s => if s = "" then d else s

/-- Maximum of a list of rationals (pandas `Series.max`); the engine only
evaluates it on non-empty columns, where the fallback head value is
absorbed by `max`. -/
def qListMax (l : List ℚ) : ℚ := l.foldr max (l.headD 0)

/-- Minimum of a list of rationals (pandas `Series.min`). -/
def qListMin (l : List ℚ) : ℚ := l.foldr min (l.headD 0)

/-- The row built for one transaction inside `_transactions_to_dataframe`.
The source computes `tx_type = getattr(t, 'type', 'EXPENSE')`; since the
pydantic model defines `type` on every instance (defaulting to `None`),
`getattr` always returns `t.type` and the `'EXPENSE'` fallback is
unreachable, so the row type is exactly `t.type`. -/
def txToRow (t : Transaction) : Row :=
  { id := t.id
    type := t.type
    amount := t.amount
    category := t.category
    description := t.description.getD ""
    date := t.date
    userId := t.userId }

/-- `InsightsService._transactions_to_dataframe`. -/
def transactions_to_dataframe (transactions : List Transaction) : List Row :=
  transactions.map txToRow

/-- `InsightsService._analyze_income_vs_expense`.  The `'type' in
df.columns` guard is always true for frames built by
`_transactions_to_dataframe`, so it is elided. -/
def analyze_income_vs_expense (df : List Row) : IncomeVsExpense :=
  let total_income : ℚ := ((df.filter (fun r => r.type = some "INCOME")).map (fun r => r.amount)).sum
  let total_expense : ℚ := ((df.filter (fun r => r.type = some "EXPENSE")).map (fun r => r.amount)).sum
  let net_balance := total_income - total_expense
  let savings_rate : ℚ := if total_income > 0 then net_balance / total_income * 100 else 0
  let status := if savings_rate ≥ 20 then "healthy" else if savings_rate ≥ 10 then "concerning" else "critical"
  { totalIncome := total_income
    totalExpense := total_expense
    netBalance := net_balance
    savingsRate := savings_rate
    status := status }

/-- Helper for `uniqueList`: distinct elements in first-occurrence order,
skipping those already `seen`. -/
def uniqueAux : List String → List String → List String
  | [], _ => []
  | c :: cs, seen => if c ∈ seen then uniqueAux cs seen else c :: uniqueAux cs (c :: seen)

/-- pandas `Series.unique`: the distinct values in order of first
appearance (used for `df['category'].unique()`). -/
def uniqueList (l : List String) : List String := uniqueAux l []

/-- `InsightsService._analyze_spending_patterns`.  The final
`patterns.sort(key=..., reverse=True)` is Python's stable sort; it is
modelled by `List.insertionSort` with the reflexive-on-ties descending
relation, which is likewise stable. -/
def analyze_spending_patterns (df : List Row) : List SpendingPattern :=
  let total : ℚ := (df.map (fun r => r.amount)).sum
  let patterns := (uniqueList (df.map (fun r => r.category))).map (fun c =>
    let cat_data := df.filter (fun r => r.category = c)
    let cat_total : ℚ := (cat_data.map (fun r => r.amount)).sum
    let cat_count : Nat := cat_data.length
    let cat_avg : ℚ := cat_total / (cat_count : ℚ)
    { category := c
      totalAmount := cat_total
      transactionCount := cat_count
      averageAmount := cat_avg
      percentage := if total > 0 then cat_total / total * 100 else 0 : SpendingPattern })
  List.insertionSort (fun a b => b.totalAmount ≤ a.totalAmount) patterns

/-- The `budget_guidelines` dict of
`_generate_budget_recommendations`, with its `.get(category, 0.05)`
default. -/
def budget_guideline (c : String) : ℚ :=
  if c = "food" then 15/100
  else if c = "utilities" then 10/100
  else if c = "transport" then 10/100
  else if c = "healthcare" then 5/100
  else if c = "entertainment" then 5/100
  else if c = "shopping" then 10/100
  else if c = "other" then 5/100
  else 5/100

/-- The body of the per-pattern loop of
`_generate_budget_recommendations`. -/
def rec_of_pattern (total_spending : ℚ) (p : SpendingPattern) : BudgetRecommendation :=
  let recommended : ℚ := total_spending * budget_guideline p.category
  if p.totalAmount > recommended * (3/2) then
    { category := p.category
      recommendedAmount := recommended
      currentSpending := p.totalAmount
      reason := "Spending is " ++ fmtFixed 0 ((p.totalAmount / recommended - 1) * 100) ++ "% over recommended budget"
      priority := "high" }
  else if p.totalAmount > recommended * (6/5) then
    { category := p.category
      recommendedAmount := recommended
      currentSpending := p.totalAmount
      reason := "Spending is slightly above recommended budget"
      priority := "medium" }
  else
    { category := p.category
      recommendedAmount := recommended
      currentSpending := p.totalAmount
      reason := "Spending is within recommended range"
      priority := "low" }

/-- `InsightsService._generate_budget_recommendations`. -/
def generate_budget_recommendations (df : List Row) (patterns : List SpendingPattern) : List BudgetRecommendation :=
  let total_spending : ℚ := (df.map (fun r => r.amount)).sum
  patterns.map (rec_of_pattern total_spending)

/-- The `recommended_pct` dict of `_assess_category_health`, with its
`.get(category, 5)` default. -/
def recommended_pct (c : String) : ℚ :=
  if c = "food" then 15
  else if c = "utilities" then 10
  else if c = "transport" then 10
  else if c = "healthcare" then 5
  else if c = "entertainment" then 5
  else if c = "shopping" then 10
  else if c = "other" then 5
  else 5

/-- The `status_order` dict of `_assess_category_health`; the statuses
produced by the loop are always among the three keys, so the `3` default
is unreachable. -/
def statusOrder (s : String) : Nat :=
  if s = "bad" then 0 else if s = "warning" then 1 else if s = "good" then 2 else 3

/-- The body of the per-pattern loop of `_assess_category_health` (it
reads only the pattern; the frame and income data are not consulted). -/
def health_of_pattern (p : SpendingPattern) : CategoryHealth :=
  let recommended := recommended_pct p.category
  if p.percentage ≤ recommended then
    { category := p.category
      status := "good"
      reason := "Spending is within healthy limits (" ++ fmtFixed 1 p.percentage ++ "% of total)"
      spending := p.totalAmount
      recommendation := "Great job managing your " ++ p.category ++ " expenses!" }
  else if p.percentage ≤ recommended * (3/2) then
    { category := p.category
      status := "warning"
      reason := "Spending is " ++ fmtFixed 0 ((p.percentage / recommended - 1) * 100) ++ "% over recommended"
      spending := p.totalAmount
      recommendation := "Try to reduce " ++ p.category ++ " spending by $" ++ fmtFixed 2 (p.totalAmount * (1/5)) }
  else
    { category := p.category
      status := "bad"
      reason := "Spending is significantly over recommended (" ++ fmtFixed 1 p.percentage ++ "% vs " ++ fmtFixed 0 recommended ++ "%)"
      spending := p.totalAmount
      recommendation := "Priority: Cut " ++ p.category ++ " expenses by $" ++ fmtFixed 2 (p.totalAmount * (3/10)) ++ " or more" }

/-- `InsightsService._assess_category_health`.  The trailing
`category_health.sort(key=lambda x: status_order[x.status])` is Python's
stable sort, modelled by the stable `List.insertionSort` with the
reflexive-on-ties key order. -/
def assess_category_health (df : List Row) (patterns : List SpendingPattern)
    (_income_data : IncomeVsExpense) : List CategoryHealth :=
  let _total_expense : ℚ := if df = [] then 1 else (df.map (fun r => r.amount)).sum
  List.insertionSort (fun a b => statusOrder a.status ≤ statusOrder b.status)
    (patterns.map health_of_pattern)

/-- Placeholder transaction for Python list indexing; inside the pipeline
`transactions[idx]` is always in bounds (the expense frame is never
longer than the full transaction list), so this default is never
consulted by any reachable index. -/
def dummyTransaction : Transaction :=
  { id := none, amount := 0, category := "", description := none, date := 0, userId := "", type := none }

/-- `InsightsService._detect_anomalies`, with the fitted
`IsolationForest` abstracted as `model : amounts → (predictions,
scores)`.  Note the second argument is the *full* transaction list (the
caller passes `[t for t in transactions if hasattr(t, 'userId')]`, and
every `Transaction` has a `userId` attribute), while `idx` enumerates
the rows of the *expense* frame. -/
def detect_anomalies (model : List ℚ → List Int × List ℚ) (df : List Row)
    (transactions : List Transaction) : List AnomalyDetection :=
  if df.length < 10 then []
  else
    let features := df.map (fun r => r.amount)
    let predictions := (model features).1
    let scores := (model features).2
    ((predictions.zip scores).enum).filterMap (fun pair =>
      let idx := pair.1
      let pred := pair.2.1
      let score := pair.2.2
      if pred = -1 then
        let transaction := transactions.getD idx dummyTransaction
        let cat_rows := df.filter (fun r => r.category = transaction.category)
        let cat_avg : ℚ := ((cat_rows.map (fun r => r.amount)).sum) / ((cat_rows.length : ℚ))
        some { transactionId := pyOr transaction.id ("tx_" ++ toString idx)
               amount := transaction.amount
               category := transaction.category
               date := transaction.date
               anomalyScore := |score|
               reason := "Amount is $" ++ fmtFixed 2 |transaction.amount - cat_avg| ++ " away from average " ++ transaction.category ++ " spending" }
      else none)

/-- The reduction suggestion string of
`_identify_savings_opportunities`. -/
def reduction_string (r : BudgetRecommendation) : String :=
  "Reduce " ++ r.category ++ " spending by $" ++ fmtFixed 2 (r.currentSpending - r.recommendedAmount) ++ "/month to meet budget goals"

/-- The consolidation suggestion string of
`_identify_savings_opportunities`. -/
def consolidation_string (p : SpendingPattern) : String :=
  "Consolidate small " ++ p.category ++ " purchases to save up to $" ++ fmtFixed 2 ((p.transactionCount : ℚ) * p.averageAmount * (3/10)) ++ "/month"

/-- The fallback string of `_identify_savings_opportunities`. -/
def well_balanced : String := "Your spending is well-balanced. Keep up the good work!"

/-- The first loop of `_identify_savings_opportunities`: the first three
high-priority recommendations, kept when the excess over the recommended
amount is positive, rendered as reduction suggestions. -/
def reduction_opportunities (recommendations : List BudgetRecommendation) : List String :=
  ((recommendations.filter (fun r => r.priority = "high")).take 3).filterMap (fun r =>
    if r.currentSpending - r.recommendedAmount > 0 then some (reduction_string r) else none)

/-- The second loop of `_identify_savings_opportunities`: one
consolidation suggestion per pattern with more than 20 transactions of
average amount below 10. -/
def consolidation_opportunities (patterns : List SpendingPattern) : List String :=
  (patterns.filter (fun p => 20 < p.transactionCount ∧ p.averageAmount < 10)).map
    consolidation_string

/-- `InsightsService._identify_savings_opportunities`. -/
def identify_savings_opportunities (patterns : List SpendingPattern)
    (recommendations : List BudgetRecommendation) : List String :=
  let opportunities := reduction_opportunities recommendations
    ++ consolidation_opportunities patterns
  let opportunities := if opportunities = [] then [well_balanced] else opportunities
  opportunities.take 5

/-- `InsightsService._empty_insights`. -/
def empty_insights (userId : String) : InsightsResponse :=
  { userId := userId
    incomeVsExpense :=
      { totalIncome := 0, totalExpense := 0, netBalance := 0, savingsRate := 0, status := "healthy" }
    spendingPatterns := []
    categoryHealth := []
    budgetRecommendations := []
    anomalies := []
    totalSpending := 0
    averageDailySpending := 0
    projectedMonthlySpending := 0
    savingsOpportunities := ["Start tracking your expenses to get personalized insights!"] }

/-- `InsightsService.analyze_transactions`.  `if not transactions:` is
the empty-list test; the anomaly step receives the full transaction list
(see `detect_anomalies`). -/
def analyze_transactions (model : List ℚ → List Int × List ℚ)
    (transactions : List Transaction) (userId : String) : InsightsResponse :=
  match transactions with
  | [] => empty_insights userId
  | _ :: _ =>
    let df := transactions_to_dataframe transactions
    let income_vs_expense := analyze_income_vs_expense df
    let expense_df := df.filter (fun r => r.type = some "EXPENSE")
    let spending_patterns := analyze_spending_patterns expense_df
    let category_health := assess_category_health expense_df spending_patterns income_vs_expense
    let budget_recommendations := generate_budget_recommendations expense_df spending_patterns
    let anomalies := detect_anomalies model expense_df transactions
    let total_spending : ℚ := if expense_df = [] then 0 else (expense_df.map (fun r => r.amount)).sum
    let date_range : Int := Int.floor (qListMax (df.map (fun r => r.date)) - qListMin (df.map (fun r => r.date)))
    let avg_daily_spending : ℚ := total_spending / ((max date_range 1 : Int) : ℚ)
    let projected_monthly : ℚ := avg_daily_spending * 30
    let savings_opportunities := identify_savings_opportunities spending_patterns budget_recommendations
    { userId := userId
      incomeVsExpense := income_vs_expense
      spendingPatterns := spending_patterns
      categoryHealth := category_health
      budgetRecommendations := budget_recommendations
      anomalies := anomalies
      totalSpending := total_spending
      averageDailySpending := avg_daily_spending
      projectedMonthlySpending := projected_monthly
      savingsOpportunities := savings_opportunities }

/-! ### Concrete inputs used by closed theorems and witnesses -/

/-- A model output that flags nothing (all predictions `1`, scores `0`). -/
def nullModel : List ℚ → List Int × List ℚ :=
  fun features => (features.map (fun _ => 1), features.map (fun _ => 0))

/-- A model output that flags exactly the first sample of a ten-sample
fit (prediction `-1` at index 0) with score `1/2` everywhere. -/
def flagFirstModel : List ℚ → List Int × List ℚ :=
  fun _ => ((-1) :: List.replicate 9 1, List.replicate 10 ((1 : ℚ)/2))

/-- A single EXPENSE transaction: food, amount 50. -/
def txFood50 : Transaction :=
  { id := some "1", amount := 50, category := "food", description := none,
    date := 0, userId := "user123", type := some "EXPENSE" }

/-- Two EXPENSE transactions: food 50 (day 0) and transport 100 (day 2). -/
def txsTwo : List Transaction :=
  [txFood50,
   { id := some "2", amount := 100, category := "transport", description := none,
     date := 2, userId := "user123", type := some "EXPENSE" }]

/-- A transaction whose `type` field is absent (pydantic default `None`). -/
def c1Txs : List Transaction :=
  [{ id := some "1", amount := 50, category := "food", description := none,
     date := 0, userId := "user123", type := none }]

/-- An EXPENSE transaction in category food with the given id, amount and
date. -/
def foodExpense (i : String) (a : ℚ) (d : ℚ) : Transaction :=
  { id := some i, amount := a, category := "food", description := none,
    date := d, userId := "u", type := some "EXPENSE" }

/-- An INCOME transaction (id `i0`) followed by ten EXPENSE transactions
(ids `e1` … `e10`), all in category food. -/
def c2Txs : List Transaction :=
  [{ id := some "i0", amount := 1000, category := "food", description := none,
     date := 0, userId := "u", type := some "INCOME" },
   foodExpense "e1" 10 1, foodExpense "e2" 20 2, foodExpense "e3" 30 3,
   foodExpense "e4" 40 4, foodExpense "e5" 50 5, foodExpense "e6" 60 6,
   foodExpense "e7" 70 7, foodExpense "e8" 80 8, foodExpense "e9" 90 9,
   foodExpense "e10" 100 10]

/-- The tier order used to sort `CategoryHealth` entries is total. -/
instance : IsTotal CategoryHealth (fun a b => statusOrder a.status ≤ statusOrder b.status) :=
  ⟨fun a b => Nat.le_total (statusOrder a.status) (statusOrder b.status)⟩

/-- The tier order used to sort `CategoryHealth` entries is transitive. -/
instance : IsTrans CategoryHealth (fun a b => statusOrder a.status ≤ statusOrder b.status) :=
  ⟨fun _ _ _ hab hbc => le_trans hab hbc⟩

/-! ### Theorems -/

/-- C6: for the empty input list the engine returns the canonical empty
`InsightsResponse`: all-zero `IncomeVsExpense` with status `healthy`,
empty pattern / health / recommendation / anomaly lists, zero totals,
and exactly one fallback savings-opportunity string; no error path is
taken (the function is total). -/
theorem c6_empty_input_canonical_response (model : List ℚ → List Int × List ℚ) (uid : String) :
    analyze_transactions model [] uid =
      { userId := uid
        incomeVsExpense :=
          { totalIncome := 0, totalExpense := 0, netBalance := 0, savingsRate := 0, status := "healthy" }
        spendingPatterns := []
        categoryHealth := []
        budgetRecommendations := []
        anomalies := []
        totalSpending := 0
        averageDailySpending := 0
        projectedMonthlySpending := 0
        savingsOpportunities := ["Start tracking your expenses to get personalized insights!"] } := rfl

/-- C1 (code bug): a transaction whose `type` field is absent is *not*
treated as an EXPENSE by the engine: with a single type-less transaction
of amount 50 the expense frame is empty, total spending and total
expense are 0, and no spending pattern is produced — because
`getattr(t, 'type', 'EXPENSE')` always finds the pydantic-initialized
`type = None` and the `'EXPENSE'` default never fires. -/
theorem c1_missing_type_not_treated_as_expense :
    (c1Txs.map (fun t => t.type) = [none] ∧ c1Txs.map (fun t => t.amount) = [50])
    ∧ (transactions_to_dataframe c1Txs).filter (fun r => r.type = some "EXPENSE") = []
    ∧ (analyze_transactions nullModel c1Txs "user123").totalSpending = 0
    ∧ (analyze_transactions nullModel c1Txs "user123").incomeVsExpense.totalExpense = 0
    ∧ (analyze_transactions nullModel c1Txs "user123").spendingPatterns = [] := by decide

/-- C2 (code bug): with an INCOME transaction in front of ten EXPENSE
transactions, the anomaly flagged at expense-row 0 is reported with the
*income* transaction's id `i0` (and its amount), although the flagged
expense row is the transaction with id `e1`: `_detect_anomalies` indexes
the full transaction list with expense-frame row indices. -/
theorem c2_anomaly_reports_wrong_transaction :
    10 ≤ ((transactions_to_dataframe c2Txs).filter (fun r => r.type = some "EXPENSE")).length
    ∧ (((transactions_to_dataframe c2Txs).filter (fun r => r.type = some "EXPENSE")).map
        (fun r => r.id)).headD none = some "e1"
    ∧ ((analyze_transactions flagFirstModel c2Txs "u").anomalies).map (fun a => a.transactionId) = ["i0"]
    ∧ ((analyze_transactions flagFirstModel c2Txs "u").anomalies).map (fun a => a.amount) = [1000] := by decide

/-- C3: whenever the expense frame has fewer than 10 rows, the anomalies
list of the response is empty (soft degraded path, no error). -/
theorem c3_few_expenses_no_anomalies (model : List ℚ → List Int × List ℚ)
    (txs : List Transaction) (uid : String)
    (h : ((transactions_to_dataframe txs).filter (fun r => r.type = some "EXPENSE")).length < 10) :
    (analyze_transactions model txs uid).anomalies = [] := by
  cases txs with
  | nil => rfl
  | cons t ts =>
    show detect_anomalies model
      ((transactions_to_dataframe (t :: ts)).filter (fun r => r.type = some "EXPENSE")) (t :: ts) = []
    simp only [detect_anomalies]
    rw [if_pos h]

theorem c3_witness : (analyze_transactions nullModel [txFood50] "u").anomalies = [] :=
  c3_few_expenses_no_anomalies nullModel [txFood50] "u" (by decide)

/-- `uniqueAux` only emits values that are not in `seen`. -/
theorem mem_uniqueAux_not_seen :
    ∀ (l seen : List String) (c : String), c ∈ uniqueAux l seen → ¬ c ∈ seen := by
  intro l
  induction l with
  | nil => intro seen c h; simp [uniqueAux] at h
  | cons a l ih =>
    intro seen c h
    simp only [uniqueAux] at h
    by_cases ha : a ∈ seen
    · rw [if_pos ha] at h
      exact ih seen c h
    · rw [if_neg ha] at h
      rcases List.mem_cons.mp h with rfl | h2
      · exact ha
      · intro hc
        exact ih (a :: seen) c h2 (List.mem_cons_of_mem _ hc)

/-- Splitting the amounts of the rows whose category avoids `seen` into
those of category `c` and those avoiding `c :: seen`. -/
theorem catsum_split :
    ∀ (l : List Row) (c : String) (seen : List String), ¬ c ∈ seen →
    ((l.filter (fun r => r.category = c)).map (fun r => r.amount)).sum
      + ((l.filter (fun r => ¬ r.category ∈ c :: seen)).map (fun r => r.amount)).sum
    = ((l.filter (fun r => ¬ r.category ∈ seen)).map (fun r => r.amount)).sum := by
  intro l
  induction l with
  | nil => intro c seen _; simp
  | cons x l ih =>
    intro c seen hc
    have ihs := ih c seen hc
    simp only [List.filter_cons]
    by_cases h1 : x.category = c
    · rw [if_pos (by simp [h1]), if_neg (by simp [h1]), if_pos (by simp [h1, hc])]
      rw [List.map_cons, List.sum_cons, List.map_cons, List.sum_cons]
      linarith
    · by_cases h2 : x.category ∈ seen
      · rw [if_neg (by simp [h1]), if_neg (by simp [h2]), if_neg (by simp [h2])]
        exact ihs
      · rw [if_neg (by simp [h1]), if_pos (by simp [h1, h2]), if_pos (by simp [h2])]
        rw [List.map_cons, List.sum_cons, List.map_cons, List.sum_cons]
        linarith

/-- The per-category totals over the first-seen distinct categories (not
yet in `seen`) partition the amounts of the rows whose category avoids
`seen`. -/
theorem uniqueAux_catsum :
    ∀ (df : List Row) (seen : List String),
    ((uniqueAux (df.map (fun r => r.category)) seen).map
        (fun c => ((df.filter (fun r => r.category = c)).map (fun r => r.amount)).sum)).sum
      = ((df.filter (fun r => ¬ r.category ∈ seen)).map (fun r => r.amount)).sum := by
  intro df
  induction df with
  | nil => intro seen; simp [uniqueAux]
  | cons x l ih =>
    intro seen
    simp only [List.map_cons, uniqueAux, List.filter_cons]
    by_cases hx : x.category ∈ seen
    · rw [if_pos hx, if_neg (by simp [hx])]
      have hmap : (uniqueAux (l.map (fun r => r.category)) seen).map
            (fun c => ((if decide (x.category = c) = true
                then x :: l.filter (fun r => decide (r.category = c))
                else l.filter (fun r => decide (r.category = c))).map (fun r => r.amount)).sum)
          = (uniqueAux (l.map (fun r => r.category)) seen).map
            (fun c => ((l.filter (fun r => r.category = c)).map (fun r => r.amount)).sum) := by
        apply List.map_congr_left
        intro c hcmem
        have hcns := mem_uniqueAux_not_seen _ _ _ hcmem
        have hne : ¬ x.category = c := fun he => hcns (he ▸ hx)
        rw [if_neg (by simp [hne])]
      rw [hmap, ih seen]
    · rw [if_neg hx, if_pos (by simp [hx])]
      rw [List.map_cons, List.sum_cons, List.map_cons, List.sum_cons]
      rw [if_pos (by simp), List.map_cons, List.sum_cons]
      have hmap : (uniqueAux (l.map (fun r => r.category)) (x.category :: seen)).map
            (fun c => ((if decide (x.category = c) = true
                then x :: l.filter (fun r => decide (r.category = c))
                else l.filter (fun r => decide (r.category = c))).map (fun r => r.amount)).sum)
          = (uniqueAux (l.map (fun r => r.category)) (x.category :: seen)).map
            (fun c => ((l.filter (fun r => r.category = c)).map (fun r => r.amount)).sum) := by
        apply List.map_congr_left
        intro c hcmem
        have hcns := mem_uniqueAux_not_seen _ _ _ hcmem
        have hne : ¬ x.category = c := fun he => hcns (he ▸ List.mem_cons_self _ _)
        rw [if_neg (by simp [hne])]
      rw [hmap, ih (x.category :: seen)]
      have hsplit := catsum_split l x.category seen hx
      linarith

/-- Sorting a list does not change the sum of a mapped quantity. -/
theorem sum_map_insertionSort {α : Type} (r : α → α → Prop) [DecidableRel r]
    (f : α → ℚ) (l : List α) :
    ((List.insertionSort r l).map f).sum = (l.map f).sum :=
  List.Perm.sum_eq (List.Perm.map f (List.perm_insertionSort r l))

/-- When the expense total is positive, the percentages of the spending
patterns computed by `_analyze_spending_patterns` sum to exactly 100. -/
theorem patterns_pct_sum (df : List Row)
    (h : 0 < (df.map (fun r => r.amount)).sum) :
    ((analyze_spending_patterns df).map (fun p => p.percentage)).sum = 100 := by
  simp only [analyze_spending_patterns]
  rw [sum_map_insertionSort]
  rw [List.map_map]
  have hpt : ((uniqueList (df.map (fun r => r.category))).map
        ((fun p => p.percentage) ∘ (fun c =>
          ({ category := c
             totalAmount := ((df.filter (fun r => r.category = c)).map (fun r => r.amount)).sum
             transactionCount := (df.filter (fun r => r.category = c)).length
             averageAmount := ((df.filter (fun r => r.category = c)).map (fun r => r.amount)).sum
               / (((df.filter (fun r => r.category = c)).length : ℚ))
             percentage := if (df.map (fun r => r.amount)).sum > 0
               then ((df.filter (fun r => r.category = c)).map (fun r => r.amount)).sum
                 / (df.map (fun r => r.amount)).sum * 100
               else 0 } : SpendingPattern))))
      = ((uniqueList (df.map (fun r => r.category))).map
          (fun c => ((df.filter (fun r => r.category = c)).map (fun r => r.amount)).sum
            * (100 / (df.map (fun r => r.amount)).sum))) := by
    apply List.map_congr_left
    intro c _
    simp only [Function.comp]
    rw [if_pos h]
    ring
  rw [hpt, List.sum_map_mul_right, uniqueList, uniqueAux_catsum df []]
  have hdf : df.filter (fun r => ¬ r.category ∈ ([] : List String)) = df := by
    apply List.filter_eq_self.mpr
    intro a _
    simp
  rw [hdf]
  field_simp

/-- C7: for every input whose expense subset has positive total, the
`percentage` fields of the response's spending patterns sum to 100 up to
the ±0.01 tolerance (the sum is exactly 100 in exact arithmetic). -/
theorem c7_percentages_sum_to_100 (model : List ℚ → List Int × List ℚ)
    (txs : List Transaction) (uid : String)
    (h : 0 < (((transactions_to_dataframe txs).filter
      (fun r => r.type = some "EXPENSE")).map (fun r => r.amount)).sum) :
    |(((analyze_transactions model txs uid).spendingPatterns).map (fun p => p.percentage)).sum - 100|
      ≤ 1/100 := by
  cases txs with
  | nil => simp [transactions_to_dataframe] at h
  | cons t ts =>
    have hs : ((analyze_transactions model (t :: ts) uid).spendingPatterns).map (fun p => p.percentage)
        = ((analyze_spending_patterns ((transactions_to_dataframe (t :: ts)).filter
            (fun r => r.type = some "EXPENSE"))).map (fun p => p.percentage)) := rfl
    rw [hs, patterns_pct_sum _ h]
    norm_num

theorem c7_witness :
    |(((analyze_transactions nullModel txsTwo "user123").spendingPatterns).map
        (fun p => p.percentage)).sum - 100| ≤ 1/100 :=
  c7_percentages_sum_to_100 nullModel txsTwo "user123"
    (by norm_num [transactions_to_dataframe, txsTwo, txFood50, txToRow, List.filter])

/-- Stability of `List.orderedInsert` for a `Nat`-key order: filtering the
insertion of `a` at one key value either prepends `a` (when it has that
key) or leaves the filtration unchanged. -/
theorem filter_orderedInsert_key {α : Type} (key : α → Nat) (k : Nat) (a : α) :
    ∀ m : List α,
    (List.orderedInsert (fun x y => key x ≤ key y) a m).filter (fun x => key x = k)
      = if key a = k then a :: m.filter (fun x => key x = k) else m.filter (fun x => key x = k) := by
  intro m
  induction m with
  | nil =>
    simp only [List.orderedInsert, List.filter_cons, List.filter_nil]
    split_ifs with h1 h2 h3 <;> simp_all
  | cons b m ih =>
    simp only [List.orderedInsert]
    by_cases hab : key a ≤ key b
    · rw [if_pos hab]
      simp only [List.filter_cons]
      split_ifs with h1 h2 h3 <;> simp_all
    · rw [if_neg hab]
      simp only [List.filter_cons]
      by_cases hbk : key b = k
      · have hak : ¬ key a = k := by
          intro hk
          exact hab (le_of_eq (hbk ▸ hk))
        rw [if_pos (by simp [hbk]), ih, if_neg hak, if_neg hak, if_pos (by simp [hbk])]
      · rw [if_neg (by simp [hbk]), ih]
        simp [hbk]

/-- Stability of `List.insertionSort` for a `Nat`-key order: sorting
commutes with filtering on any single key value (so the relative order
of equal-key elements is preserved). -/
theorem filter_insertionSort_key {α : Type} (key : α → Nat) (k : Nat) :
    ∀ l : List α,
    (List.insertionSort (fun x y => key x ≤ key y) l).filter (fun x => key x = k)
      = l.filter (fun x => key x = k) := by
  intro l
  induction l with
  | nil => rfl
  | cons a l ih =>
    simp only [List.insertionSort]
    rw [filter_orderedInsert_key key k a, ih, List.filter_cons]
    split_ifs with h1 <;> simp_all

/-- C5: the CategoryHealth list of every response is ordered by tier
(`bad` = 0 before `warning` = 1 before `good` = 2), and restricted to any
one tier it coincides with the health entries generated from the Pattern
Analyzer's output in pattern order (stable sort by tier). -/
theorem c5_category_health_ordering (model : List ℚ → List Int × List ℚ)
    (txs : List Transaction) (uid : String) :
    ((analyze_transactions model txs uid).categoryHealth).Pairwise
      (fun a b : CategoryHealth => statusOrder a.status ≤ statusOrder b.status)
    ∧ ∀ k : Nat,
      ((analyze_transactions model txs uid).categoryHealth).filter
          (fun h : CategoryHealth => statusOrder h.status = k)
        = (((analyze_transactions model txs uid).spendingPatterns).map health_of_pattern).filter
            (fun h : CategoryHealth => statusOrder h.status = k) := by
  cases txs with
  | nil => exact ⟨List.Pairwise.nil, fun k => rfl⟩
  | cons t ts =>
    constructor
    · exact List.sorted_insertionSort
        (fun a b : CategoryHealth => statusOrder a.status ≤ statusOrder b.status) _
    · intro k
      exact filter_insertionSort_key (fun h : CategoryHealth => statusOrder h.status) k _

/-- A reduction suggestion never coincides with the fallback string. -/
theorem reduction_string_ne_well_balanced (b : BudgetRecommendation) :
    reduction_string b ≠ well_balanced := by
  intro h
  have hd := congrArg (fun s => s.data.head?) h
  simp [reduction_string, well_balanced, String.data_append] at hd

/-- A consolidation suggestion never coincides with the fallback string. -/
theorem consolidation_string_ne_well_balanced (p : SpendingPattern) :
    consolidation_string p ≠ well_balanced := by
  intro h
  have hd := congrArg (fun s => s.data.head?) h
  simp [consolidation_string, well_balanced, String.data_append] at hd

/-- Shape of `_identify_savings_opportunities`: at most five entries,
equal to the truncated concatenation of the two generators, and equal to
the single fallback string exactly when both generators are empty. -/
theorem savings_shape (patterns : List SpendingPattern) (recs : List BudgetRecommendation) :
    (identify_savings_opportunities patterns recs).length ≤ 5
    ∧ identify_savings_opportunities patterns recs
      = (if reduction_opportunities recs ++ consolidation_opportunities patterns = []
          then [well_balanced]
          else reduction_opportunities recs ++ consolidation_opportunities patterns).take 5
    ∧ (identify_savings_opportunities patterns recs = [well_balanced]
        ↔ (reduction_opportunities recs = [] ∧ consolidation_opportunities patterns = [])) := by
  refine ⟨?_, rfl, ?_, ?_⟩
  · show ((if reduction_opportunities recs ++ consolidation_opportunities patterns = []
        then [well_balanced]
        else reduction_opportunities recs ++ consolidation_opportunities patterns).take 5).length ≤ 5
    split_ifs <;> simp [List.length_take]
  · intro heq
    by_cases hL : reduction_opportunities recs ++ consolidation_opportunities patterns = []
    · exact List.append_eq_nil.mp hL
    · exfalso
      have heq2 : (reduction_opportunities recs ++ consolidation_opportunities patterns).take 5
          = [well_balanced] := by
        have : identify_savings_opportunities patterns recs
            = (reduction_opportunities recs ++ consolidation_opportunities patterns).take 5 := by
          show (if reduction_opportunities recs ++ consolidation_opportunities patterns = []
            then [well_balanced]
            else reduction_opportunities recs ++ consolidation_opportunities patterns).take 5 = _
          rw [if_neg hL]
        rw [this] at heq
        exact heq
      have hwb : well_balanced ∈ reduction_opportunities recs ++ consolidation_opportunities patterns := by
        apply List.take_subset 5
        rw [heq2]
        exact List.mem_singleton_self well_balanced
      rcases List.mem_append.mp hwb with hR | hC
      · rcases List.mem_filterMap.mp hR with ⟨b, _, hfb⟩
        by_cases hcond : b.currentSpending - b.recommendedAmount > 0
        · rw [if_pos hcond] at hfb
          exact reduction_string_ne_well_balanced b (Option.some.inj hfb)
        · rw [if_neg hcond] at hfb
          exact Option.noConfusion hfb
      · rcases List.mem_map.mp hC with ⟨p, _, hpb⟩
        exact consolidation_string_ne_well_balanced p hpb
  · rintro ⟨hR, hC⟩
    show (if reduction_opportunities recs ++ consolidation_opportunities patterns = []
        then [well_balanced]
        else reduction_opportunities recs ++ consolidation_opportunities patterns).take 5 = _
    rw [hR, hC]
    simp

/-- C8: for every non-empty input the savings-opportunity list has at
most 5 entries; it is the concatenation of the reduction suggestions
(from the first three high-priority recommendations with positive
excess) and the consolidation suggestions (per pattern with more than 20
transactions averaging under 10), truncated to 5; and it equals exactly
the single fallback string iff neither generator produced anything. -/
theorem c8_savings_opportunities_shape (model : List ℚ → List Int × List ℚ)
    (txs : List Transaction) (uid : String) (htxs : txs ≠ []) :
    (analyze_transactions model txs uid).savingsOpportunities.length ≤ 5
    ∧ (analyze_transactions model txs uid).savingsOpportunities
      = (if reduction_opportunities ((analyze_transactions model txs uid).budgetRecommendations)
            ++ consolidation_opportunities ((analyze_transactions model txs uid).spendingPatterns) = []
          then [well_balanced]
          else reduction_opportunities ((analyze_transactions model txs uid).budgetRecommendations)
            ++ consolidation_opportunities ((analyze_transactions model txs uid).spendingPatterns)).take 5
    ∧ ((analyze_transactions model txs uid).savingsOpportunities = [well_balanced]
        ↔ (reduction_opportunities ((analyze_transactions model txs uid).budgetRecommendations) = []
           ∧ consolidation_opportunities ((analyze_transactions model txs uid).spendingPatterns) = [])) := by
  cases txs with
  | nil => exact absurd rfl htxs
  | cons t ts => exact savings_shape _ _

theorem c8_witness :
    (analyze_transactions nullModel [txFood50] "u").savingsOpportunities.length ≤ 5
    ∧ (analyze_transactions nullModel [txFood50] "u").savingsOpportunities
      = (if reduction_opportunities ((analyze_transactions nullModel [txFood50] "u").budgetRecommendations)
            ++ consolidation_opportunities ((analyze_transactions nullModel [txFood50] "u").spendingPatterns) = []
          then [well_balanced]
          else reduction_opportunities ((analyze_transactions nullModel [txFood50] "u").budgetRecommendations)
            ++ consolidation_opportunities ((analyze_transactions nullModel [txFood50] "u").spendingPatterns)).take 5
    ∧ ((analyze_transactions nullModel [txFood50] "u").savingsOpportunities = [well_balanced]
        ↔ (reduction_opportunities ((analyze_transactions nullModel [txFood50] "u").budgetRecommendations) = []
           ∧ consolidation_opportunities ((analyze_transactions nullModel [txFood50] "u").spendingPatterns) = [])) :=
  c8_savings_opportunities_shape nullModel [txFood50] "u" (by decide)

/-- Sum of a pointwise non-negative mapped list is non-negative. -/
theorem sum_map_nonneg {α : Type} (l : List α) (f : α → ℚ) (h : ∀ x ∈ l, 0 ≤ f x) :
    0 ≤ (l.map f).sum := by
  induction l with
  | nil => simp
  | cons a l ih =>
    simp only [List.map_cons, List.sum_cons]
    have h0 := h a (List.mem_cons_self a l)
    have ih2 := ih (fun x hx => h x (List.mem_cons_of_mem a hx))
    linarith

/-- Every guideline fraction is non-negative. -/
theorem budget_guideline_nonneg (c : String) : 0 ≤ budget_guideline c := by
  simp only [budget_guideline]
  split_ifs <;> norm_num

/-- The default head of a non-empty list is a member. -/
theorem headD_mem {α : Type} (l : List α) (d : α) (h : 0 < l.length) : l.headD d ∈ l := by
  cases l with
  | nil => simp at h
  | cons a t => exact List.mem_cons_self a t

/-- Amounts in the expense frame are non-negative when all transaction
amounts are positive (the schema declares `amount` with `gt=0`). -/
theorem expense_rows_amount_nonneg (txs : List Transaction)
    (hpos : ∀ t ∈ txs, 0 < t.amount) :
    ∀ r ∈ (transactions_to_dataframe txs).filter (fun r => r.type = some "EXPENSE"),
      0 ≤ r.amount := by
  intro r hr
  obtain ⟨hrm, -⟩ := List.mem_filter.mp hr
  obtain ⟨t, ht, rfl⟩ := List.mem_map.mp hrm
  exact le_of_lt (hpos t ht)

/-- C4: every budget recommendation of a response (for inputs whose
amounts are positive, as the schema requires) has priority `high` iff
spending exceeds 1.5 times the recommended amount, `medium` iff it
exceeds 1.2 times but not 1.5 times, `low` otherwise; and the
recommended amount is the expense total times the category's guideline
fraction, whose table is food 0.15, utilities 0.10, transport 0.10,
healthcare 0.05, entertainment 0.05, shopping 0.10, other 0.05. -/
theorem c4_budget_priority_thresholds (model : List ℚ → List Int × List ℚ)
    (txs : List Transaction) (uid : String) (b : BudgetRecommendation)
    (hpos : ∀ t ∈ txs, 0 < t.amount)
    (hb : b ∈ (analyze_transactions model txs uid).budgetRecommendations) :
    (b.priority = "high" ↔ (3/2 : ℚ) * b.recommendedAmount < b.currentSpending)
    ∧ (b.priority = "medium" ↔
        ((6/5 : ℚ) * b.recommendedAmount < b.currentSpending
          ∧ ¬ (3/2 : ℚ) * b.recommendedAmount < b.currentSpending))
    ∧ (b.priority = "low" ↔ b.currentSpending ≤ (6/5 : ℚ) * b.recommendedAmount)
    ∧ b.recommendedAmount
        = (((transactions_to_dataframe txs).filter (fun r => r.type = some "EXPENSE")).map
            (fun r => r.amount)).sum * budget_guideline b.category
    ∧ budget_guideline "food" = 15/100 ∧ budget_guideline "utilities" = 10/100
    ∧ budget_guideline "transport" = 10/100 ∧ budget_guideline "healthcare" = 5/100
    ∧ budget_guideline "entertainment" = 5/100 ∧ budget_guideline "shopping" = 10/100
    ∧ budget_guideline "other" = 5/100 := by
  have htable : budget_guideline "food" = 15/100 ∧ budget_guideline "utilities" = 10/100
      ∧ budget_guideline "transport" = 10/100 ∧ budget_guideline "healthcare" = 5/100
      ∧ budget_guideline "entertainment" = 5/100 ∧ budget_guideline "shopping" = 10/100
      ∧ budget_guideline "other" = 5/100 :=
    ⟨rfl, rfl, rfl, rfl, rfl, rfl, rfl⟩
  cases txs with
  | nil =>
    exfalso
    have hb0 : b ∈ ([] : List BudgetRecommendation) := hb
    simp at hb0
  | cons t ts =>
    have hb2 : b ∈ (analyze_spending_patterns
        ((transactions_to_dataframe (t :: ts)).filter (fun r => r.type = some "EXPENSE"))).map
        (rec_of_pattern ((((transactions_to_dataframe (t :: ts)).filter
          (fun r => r.type = some "EXPENSE")).map (fun r => r.amount)).sum)) := hb
    obtain ⟨p, hp, hbe⟩ := List.mem_map.mp hb2
    subst hbe
    have htot : 0 ≤ (((transactions_to_dataframe (t :: ts)).filter
        (fun r => r.type = some "EXPENSE")).map (fun r => r.amount)).sum :=
      sum_map_nonneg _ _ (expense_rows_amount_nonneg (t :: ts) hpos)
    have hg := budget_guideline_nonneg p.category
    have hrec : 0 ≤ (((transactions_to_dataframe (t :: ts)).filter
        (fun r => r.type = some "EXPENSE")).map (fun r => r.amount)).sum
        * budget_guideline p.category := mul_nonneg htot hg
    simp only [rec_of_pattern]
    split_ifs with h1 h2
    · refine ⟨iff_of_true rfl (by dsimp only; linarith), ?_, ?_, rfl, htable⟩
      · refine iff_of_false (by simp) ?_
        dsimp only
        exact fun hx => hx.2 (by linarith)
      · refine iff_of_false (by simp) ?_
        dsimp only
        exact fun hx => by linarith
    · refine ⟨?_, iff_of_true rfl ⟨by dsimp only; linarith, by dsimp only; exact fun hx => h1 (by linarith)⟩, ?_, rfl, htable⟩
      · refine iff_of_false (by simp) ?_
        dsimp only
        exact fun hx => h1 (by linarith)
      · refine iff_of_false (by simp) ?_
        dsimp only
        exact fun hx => by linarith
    · refine ⟨?_, ?_, iff_of_true rfl (by dsimp only; linarith), rfl, htable⟩
      · refine iff_of_false (by simp) ?_
        dsimp only
        exact fun hx => h1 (by linarith)
      · refine iff_of_false (by simp) ?_
        dsimp only
        exact fun hx => h2 (by linarith [hx.1])

theorem c4_witness :
    ((((analyze_transactions nullModel [txFood50] "u").budgetRecommendations).headD
        { category := "", recommendedAmount := 0, currentSpending := 0, reason := "", priority := "" }).priority = "high"
      ↔ (3/2 : ℚ) * (((analyze_transactions nullModel [txFood50] "u").budgetRecommendations).headD
        { category := "", recommendedAmount := 0, currentSpending := 0, reason := "", priority := "" }).recommendedAmount
        < (((analyze_transactions nullModel [txFood50] "u").budgetRecommendations).headD
        { category := "", recommendedAmount := 0, currentSpending := 0, reason := "", priority := "" }).currentSpending)
    ∧ ((((analyze_transactions nullModel [txFood50] "u").budgetRecommendations).headD
        { category := "", recommendedAmount := 0, currentSpending := 0, reason := "", priority := "" }).priority = "medium"
      ↔ ((6/5 : ℚ) * (((analyze_transactions nullModel [txFood50] "u").budgetRecommendations).headD
        { category := "", recommendedAmount := 0, currentSpending := 0, reason := "", priority := "" }).recommendedAmount
        < (((analyze_transactions nullModel [txFood50] "u").budgetRecommendations).headD
        { category := "", recommendedAmount := 0, currentSpending := 0, reason := "", priority := "" }).currentSpending
        ∧ ¬ (3/2 : ℚ) * (((analyze_transactions nullModel [txFood50] "u").budgetRecommendations).headD
        { category := "", recommendedAmount := 0, currentSpending := 0, reason := "", priority := "" }).recommendedAmount
        < (((analyze_transactions nullModel [txFood50] "u").budgetRecommendations).headD
        { category := "", recommendedAmount := 0, currentSpending := 0, reason := "", priority := "" }).currentSpending))
    ∧ ((((analyze_transactions nullModel [txFood50] "u").budgetRecommendations).headD
        { category := "", recommendedAmount := 0, currentSpending := 0, reason := "", priority := "" }).priority = "low"
      ↔ (((analyze_transactions nullModel [txFood50] "u").budgetRecommendations).headD
        { category := "", recommendedAmount := 0, currentSpending := 0, reason := "", priority := "" }).currentSpending
        ≤ (6/5 : ℚ) * (((analyze_transactions nullModel [txFood50] "u").budgetRecommendations).headD
        { category := "", recommendedAmount := 0, currentSpending := 0, reason := "", priority := "" }).recommendedAmount)
    ∧ (((analyze_transactions nullModel [txFood50] "u").budgetRecommendations).headD
        { category := "", recommendedAmount := 0, currentSpending := 0, reason := "", priority := "" }).recommendedAmount
        = (((transactions_to_dataframe [txFood50]).filter (fun r => r.type = some "EXPENSE")).map
            (fun r => r.amount)).sum
          * budget_guideline (((analyze_transactions nullModel [txFood50] "u").budgetRecommendations).headD
        { category := "", recommendedAmount := 0, currentSpending := 0, reason := "", priority := "" }).category
    ∧ budget_guideline "food" = 15/100 ∧ budget_guideline "utilities" = 10/100
    ∧ budget_guideline "transport" = 10/100 ∧ budget_guideline "healthcare" = 5/100
    ∧ budget_guideline "entertainment" = 5/100 ∧ budget_guideline "shopping" = 10/100
    ∧ budget_guideline "other" = 5/100 :=
  c4_budget_priority_thresholds nullModel [txFood50] "u"
    (((analyze_transactions nullModel [txFood50] "u").budgetRecommendations).headD
      { category := "", recommendedAmount := 0, currentSpending := 0, reason := "", priority := "" })
    (by intro t ht; rw [List.mem_singleton] at ht; subst ht; norm_num [txFood50])
    (headD_mem _ _ (by decide))

/-- The expense filter commutes with building the DataFrame. -/
theorem df_expense_filter (txs : List Transaction) :
    (transactions_to_dataframe txs).filter (fun r => r.type = some "EXPENSE")
      = (txs.filter (fun t => t.type = some "EXPENSE")).map txToRow := by
  induction txs with
  | nil => rfl
  | cons t ts ih =>
    simp only [transactions_to_dataframe, List.map_cons, List.filter_cons] at *
    by_cases h : t.type = some "EXPENSE"
    · rw [if_pos (by simp [txToRow, h]), if_pos (by simp [h]), List.map_cons, ih]
    · rw [if_neg (by simp [txToRow, h]), if_neg (by simp [h]), ih]

/-- DataFrame rows keep the transaction dates. -/
theorem df_dates (txs : List Transaction) :
    (transactions_to_dataframe txs).map (fun r => r.date) = txs.map (fun t => t.date) := by
  simp only [transactions_to_dataframe, List.map_map]
  rfl

/-- The guarded empty-frame total equals the plain sum. -/
theorem sum_if_empty (l : List Row) :
    (if l = [] then (0:ℚ) else (l.map (fun r => r.amount)).sum)
      = (l.map (fun r => r.amount)).sum := by
  cases l <;> simp

/-- C9: for every non-empty input, `averageDailySpending` is the expense
total divided by `max d 1`, where `d` is the floor of the span between
the earliest and latest date over the *full* input (income included),
and `projectedMonthlySpending` is 30 times that. -/
theorem c9_average_daily_spending (model : List ℚ → List Int × List ℚ)
    (txs : List Transaction) (uid : String) (htxs : txs ≠ []) :
    (analyze_transactions model txs uid).averageDailySpending
      = ((txs.filter (fun t => t.type = some "EXPENSE")).map (fun t => t.amount)).sum
        / ((max (Int.floor (qListMax (txs.map (fun t => t.date))
            - qListMin (txs.map (fun t => t.date)))) 1 : Int) : ℚ)
    ∧ (analyze_transactions model txs uid).projectedMonthlySpending
      = (analyze_transactions model txs uid).averageDailySpending * 30 := by
  cases txs with
  | nil => exact absurd rfl htxs
  | cons t ts =>
    refine ⟨?_, rfl⟩
    show (if (transactions_to_dataframe (t :: ts)).filter (fun r => r.type = some "EXPENSE") = []
        then (0:ℚ)
        else (((transactions_to_dataframe (t :: ts)).filter
          (fun r => r.type = some "EXPENSE")).map (fun r => r.amount)).sum)
        / ((max (Int.floor (qListMax ((transactions_to_dataframe (t :: ts)).map (fun r => r.date))
            - qListMin ((transactions_to_dataframe (t :: ts)).map (fun r => r.date)))) 1 : Int) : ℚ)
      = _
    rw [sum_if_empty, df_expense_filter, df_dates, List.map_map]
    rfl

theorem c9_witness :
    (analyze_transactions nullModel txsTwo "user123").averageDailySpending
      = ((txsTwo.filter (fun t => t.type = some "EXPENSE")).map (fun t => t.amount)).sum
        / ((max (Int.floor (qListMax (txsTwo.map (fun t => t.date))
            - qListMin (txsTwo.map (fun t => t.date)))) 1 : Int) : ℚ)
    ∧ (analyze_transactions nullModel txsTwo "user123").projectedMonthlySpending
      = (analyze_transactions nullModel txsTwo "user123").averageDailySpending * 30 :=
  c9_average_daily_spending nullModel txsTwo "user123" (by decide)

/-- A `filterMap` whose function hits `some` on every member keeps the
length. -/
theorem length_filterMap_of_forall_some {α β : Type} (f : α → Option β) :
    ∀ l : List α, (∀ x ∈ l, (f x).isSome) → (l.filterMap f).length = l.length := by
  intro l
  induction l with
  | nil => intro _; rfl
  | cons a l ih =>
    intro h
    have ha := h a (List.mem_cons_self a l)
    rw [List.filterMap_cons]
    cases hfa : f a with
    | none => rw [hfa] at ha; simp at ha
    | some b =>
      simp only [List.length_cons]
      rw [ih (fun x hx => h x (List.mem_cons_of_mem a hx))]

/-- C10: with positive transaction amounts (as the schema enforces), a
high-priority recommendation always has strictly positive excess
`currentSpending - recommendedAmount`, so the `excess > 0` guard of the
Savings Synthesizer never rejects one and each of the first three
high-priority recommendations contributes a reduction string. -/
theorem c10_high_priority_positive_excess (model : List ℚ → List Int × List ℚ)
    (txs : List Transaction) (uid : String)
    (hpos : ∀ t ∈ txs, 0 < t.amount) :
    (∀ b ∈ (analyze_transactions model txs uid).budgetRecommendations,
      b.priority = "high" → 0 < b.currentSpending - b.recommendedAmount)
    ∧ (reduction_opportunities ((analyze_transactions model txs uid).budgetRecommendations)).length
      = ((((analyze_transactions model txs uid).budgetRecommendations).filter
          (fun b => b.priority = "high")).take 3).length := by
  have hmain : ∀ b ∈ (analyze_transactions model txs uid).budgetRecommendations,
      b.priority = "high" → 0 < b.currentSpending - b.recommendedAmount := by
    intro b hb hpr
    cases txs with
    | nil =>
      have hb0 : b ∈ ([] : List BudgetRecommendation) := hb
      simp at hb0
    | cons t ts =>
      have hb2 : b ∈ (analyze_spending_patterns
          ((transactions_to_dataframe (t :: ts)).filter (fun r => r.type = some "EXPENSE"))).map
          (rec_of_pattern ((((transactions_to_dataframe (t :: ts)).filter
            (fun r => r.type = some "EXPENSE")).map (fun r => r.amount)).sum)) := hb
      obtain ⟨p, hp, hbe⟩ := List.mem_map.mp hb2
      subst hbe
      have htot : 0 ≤ (((transactions_to_dataframe (t :: ts)).filter
          (fun r => r.type = some "EXPENSE")).map (fun r => r.amount)).sum :=
        sum_map_nonneg _ _ (expense_rows_amount_nonneg (t :: ts) hpos)
      have hrec : 0 ≤ (((transactions_to_dataframe (t :: ts)).filter
          (fun r => r.type = some "EXPENSE")).map (fun r => r.amount)).sum
          * budget_guideline p.category := mul_nonneg htot (budget_guideline_nonneg p.category)
      revert hpr
      simp only [rec_of_pattern]
      split_ifs with h1 h2
      · dsimp only
        intro _
        linarith
      · dsimp only
        intro hpr
        exact absurd hpr (by simp)
      · dsimp only
        intro hpr
        exact absurd hpr (by simp)
  refine ⟨hmain, ?_⟩
  apply length_filterMap_of_forall_some
  intro b hb
  have hbf := List.take_subset 3 _ hb
  obtain ⟨hbm, hbp⟩ := List.mem_filter.mp hbf
  have hex := hmain b hbm (by simpa using hbp)
  rw [if_pos (by linarith)]
  rfl

theorem c10_witness :
    (∀ b ∈ (analyze_transactions nullModel [txFood50] "u").budgetRecommendations,
      b.priority = "high" → 0 < b.currentSpending - b.recommendedAmount)
    ∧ (reduction_opportunities ((analyze_transactions nullModel [txFood50] "u").budgetRecommendations)).length
      = ((((analyze_transactions nullModel [txFood50] "u").budgetRecommendations).filter
          (fun b => b.priority = "high")).take 3).length :=
  c10_high_priority_positive_excess nullModel [txFood50] "u"
    (by intro t ht; rw [List.mem_singleton] at ht; subst ht; norm_num [txFood50])
